import Mathlib

/-!
Verification of the MudraDesk backend's access-control and account-lifecycle
logic (src/backend/app.py, src/backend/auth.py, src/backend/supabase_client.py),
shallowly embedded in Lean 4.

Records in the credential store are embedded as a `List Account`; the Flask
session cookie as a `SessionState`; external collaborators (password hashing,
GST verification, the Supabase write path, the random token source) are
parameters of the embedded operations.
-/

/-- An account record as built by `register` in app.py: the `user_data` dict
with its profile fields and the three status flags. -/
structure Account where
  id : String
  email : String
  password_hash : String
  business_name : String
  business_address : String
  owner_name : String
  mobile : String
  gst_number : String
  gst_verified : Nat
  is_admin : Bool
  is_approved : Bool
  is_active : Bool
deriving Repr, DecidableEq

/-- The Flask session cookie contents used by the backend: the `user_id` key,
the `is_admin` key, and the `session.permanent` flag. A key absent from the
session dict is `none`. -/
structure SessionState where
  user_id : Option String
  is_admin : Option Bool
  permanent : Bool
deriving Repr, DecidableEq

/-- Result of `session.clear()`: all keys removed, permanence reset. -/
def emptySession : SessionState := ⟨none, none, false⟩

/-- supabase_client.get_user_by_id: `select('*').eq('id', id).single()`.
`single()` raises unless exactly one row matches, and the wrapper catches the
exception and returns None. -/
def get_user_by_id (users : List Account) (uid : String) : Option Account :=
  match users.filter (fun u => u.id == uid) with
  | [u] => some u
  | _ => none

/-- supabase_client.get_user_by_email: `select('*').eq('email', email).single()`
with the same exactly-one-row semantics as `get_user_by_id`. -/
def get_user_by_email (users : List Account) (email : String) : Option Account :=
  match users.filter (fun u => u.email == email) with
  | [u] => some u
  | _ => none

/-- app.py `_get_user_by_email_any`: returns None when Supabase is not
configured, otherwise delegates to `get_user_by_email`. -/
def get_user_by_email_any (supabaseEnabled : Bool) (users : List Account)
    (email : String) : Option Account :=
  if supabaseEnabled then get_user_by_email users email else none

/-- auth.py `get_current_user`: None when no `user_id` key is in the session,
otherwise the store lookup by id (exceptions collapse to None). -/
def get_current_user (users : List Account) (s : SessionState) : Option Account :=
  match s.user_id with
  | none => none
  | some uid => get_user_by_id users uid

/-- Observable result of a request guard: where the request is sent, with the
flashed message; `proceed` means the wrapped handler runs with this account. -/
inductive GuardOutcome where
  | redirectLogin (msg : String)
  | redirectPending
  | redirectIndex (msg : String)
  | proceed (u : Account)
deriving Repr, DecidableEq

/-- auth.py `login_required` decorator body: returns the guard outcome together
with the session as it stands after the guard ran (the guard may clear it). -/
def login_required (users : List Account) (s : SessionState) :
    GuardOutcome × SessionState :=
  match s.user_id with
  | none => (.redirectLogin "Please log in to access this page.", s)
  | some _ =>
    match get_current_user users s with
    | none => (.redirectLogin "Session expired. Please log in again.", emptySession)
    | some u =>
      if !u.is_approved && !u.is_admin then (.redirectPending, s)
      else if !u.is_active then
        (.redirectLogin "Your account has been deactivated.", emptySession)
      else (.proceed u, s)

/-- auth.py `admin_required` decorator body: `not user or not user.get('is_admin')`
is a single branch redirecting to the index view; the session is never cleared. -/
def admin_required (users : List Account) (s : SessionState) :
    GuardOutcome × SessionState :=
  match s.user_id with
  | none => (.redirectLogin "Please log in to access this page.", s)
  | some _ =>
    match get_current_user users s with
    | none => (.redirectIndex "Admin access required.", s)
    | some u =>
      if !u.is_admin then (.redirectIndex "Admin access required.", s)
      else (.proceed u, s)

/-- The ASCII code points matched by the special-character class in
app.py `validate_password_strength`, including the `\s` whitespace escapes
(space, tab, LF, VT, FF, CR). Python's `\s` additionally matches non-ASCII
Unicode whitespace; the model restricts to the ASCII range. -/
def specialCodes : List Nat :=
  [33, 64, 35, 36, 37, 94, 38, 42, 40, 41, 44, 46, 63, 34, 58, 123, 125, 124,
   60, 62, 95, 45, 43, 61, 91, 93, 92, 47, 126, 96, 39, 59,
   32, 9, 10, 11, 12, 13]

/-- Membership in the special-character class used by the password checker. -/
def isSpecialChar (c : Char) : Bool := specialCodes.contains c.toNat

def errPwLen : String := "Password must be at least 8 characters long."
def errPwUpper : String := "Password must contain at least one uppercase letter."
def errPwDigit : String := "Password must contain at least one number."
def errPwSpecial : String :=
  "Password must contain at least one special character (e.g. @, #, !, $)."

/-- app.py `validate_password_strength`: collects the message for every unmet
rule, in the source's order (length, uppercase, digit, special). -/
def validate_password_strength (password : String) : List String :=
  (if password.length < 8 then [errPwLen] else []) ++
  (if password.data.any Char.isUpper then [] else [errPwUpper]) ++
  (if password.data.any Char.isDigit then [] else [errPwDigit]) ++
  (if password.data.any isSpecialChar then [] else [errPwSpecial])

/-- C4: `validate_password_strength` checks exactly the four rules and reports
every unmet one: a short password yields the length error, a password with no
uppercase letter / digit / special character yields the corresponding error,
and a password meeting all four rules yields the empty list. -/
theorem c4_password_strength_reports_all_rules :
    (∀ pw : String, pw.length < 8 → errPwLen ∈ validate_password_strength pw) ∧
    (∀ pw : String, (∀ c ∈ pw.data, ¬ c.isUpper) →
      errPwUpper ∈ validate_password_strength pw) ∧
    (∀ pw : String, (∀ c ∈ pw.data, ¬ c.isDigit) →
      errPwDigit ∈ validate_password_strength pw) ∧
    (∀ pw : String, (∀ c ∈ pw.data, ¬ (isSpecialChar c = true)) →
      errPwSpecial ∈ validate_password_strength pw) ∧
    (∀ pw : String, 8 ≤ pw.length →
      (∃ c ∈ pw.data, c.isUpper) → (∃ c ∈ pw.data, c.isDigit) →
      (∃ c ∈ pw.data, isSpecialChar c) →
      validate_password_strength pw = []) := by
  refine ⟨?_, ?_, ?_, ?_, ?_⟩
  · intro pw h
    simp [validate_password_strength, h]
  · intro pw h
    have hany : pw.data.any Char.isUpper = false := by
      simp only [List.any_eq_false]
      exact h
    simp [validate_password_strength, hany]
  · intro pw h
    have hany : pw.data.any Char.isDigit = false := by
      simp only [List.any_eq_false]
      exact h
    simp [validate_password_strength, hany]
  · intro pw h
    have hany : pw.data.any isSpecialChar = false := by
      simp only [List.any_eq_false]
      exact h
    simp [validate_password_strength, hany]
  · intro pw hlen hu hd hs
    have h1 : ¬ pw.length < 8 := by omega
    have h2 : pw.data.any Char.isUpper = true := List.any_eq_true.mpr hu
    have h3 : pw.data.any Char.isDigit = true := List.any_eq_true.mpr hd
    have h4 : pw.data.any isSpecialChar = true := List.any_eq_true.mpr hs
    simp [validate_password_strength, h1, h2, h3, h4]

/-- Witness for C4 at concrete passwords: "abc" is short and lacks uppercase
and digit; "Abc12345!" satisfies all four rules. -/
theorem c4_password_strength_reports_all_rules_witness :
    errPwLen ∈ validate_password_strength "abc" ∧
    errPwUpper ∈ validate_password_strength "abc1234!" ∧
    errPwDigit ∈ validate_password_strength "Abcdefg!" ∧
    errPwSpecial ∈ validate_password_strength "Abc12345" ∧
    validate_password_strength "Abc12345!" = [] := by
  refine ⟨?_, ?_, ?_, ?_, ?_⟩
  · exact c4_password_strength_reports_all_rules.1 "abc" (by decide)
  · exact c4_password_strength_reports_all_rules.2.1 "abc1234!" (by decide)
  · exact c4_password_strength_reports_all_rules.2.2.1 "Abcdefg!" (by decide)
  · exact c4_password_strength_reports_all_rules.2.2.2.1 "Abc12345" (by decide)
  · exact c4_password_strength_reports_all_rules.2.2.2.2 "Abc12345!" (by decide)
      (by decide) (by decide) (by decide)

/-- ASCII whitespace as removed by Python's `str.strip()` (space, tab, LF, VT,
FF, CR). Python also strips non-ASCII Unicode whitespace; the model restricts
to the ASCII range. -/
def pyIsSpace (c : Char) : Bool := [32, 9, 10, 11, 12, 13].contains c.toNat

/-- Python `str.strip()`: drop whitespace from both ends. -/
def pyStrip (s : String) : String :=
  String.mk (((s.data.dropWhile pyIsSpace).reverse.dropWhile pyIsSpace).reverse)

/-- Python `str.lower()` on ASCII input (`Char.toLower` only maps A-Z). -/
def pyLower (s : String) : String := String.mk (s.data.map Char.toLower)

/-- Python `str.upper()` on ASCII input (`Char.toUpper` only maps a-z). -/
def pyUpper (s : String) : String := String.mk (s.data.map Char.toUpper)

/-- Python truthiness of an environment variable read via `os.environ.get`:
present and non-empty. -/
def truthy (o : Option String) : Bool :=
  match o with
  | none => false
  | some s => !(s == "")

/-- The condition `if env_admin_email and env_admin_password` in app.py login. -/
def superadminConfigured (env_admin_email env_admin_password : Option String) : Bool :=
  truthy env_admin_email && truthy env_admin_password

/-- The super-admin short-circuit test in app.py login: both env credentials
configured, the (already stripped and lowercased) submitted email equals the
stripped, lowercased `ADMIN_EMAIL`, and the password equals `ADMIN_PASSWORD`
exactly. -/
def superadminMatch (env_admin_email env_admin_password : Option String)
    (email password : String) : Bool :=
  superadminConfigured env_admin_email env_admin_password &&
  email == pyLower (pyStrip (env_admin_email.getD "")) &&
  password == env_admin_password.getD ""

/-- Observable result of the login POST handler: redirect to index with no
flash (already logged in), re-render the login page with a flashed error,
redirect to index with a flashed welcome message, or redirect to the
pending-approval view. -/
inductive LoginOutcome where
  | redirectIndex
  | renderLogin (msg : String)
  | redirectIndexFlash (msg : String)
  | redirectPending
deriving Repr, DecidableEq

/-- app.py `login` POST branch. `checkHash hash password` embeds Werkzeug's
`check_password_hash`; `fresh` is the value `secrets.token_hex(4)` would
return for this request; the form email is stripped and lowercased as in the
source. Returns the outcome and the session after the handler. -/
def login (checkHash : String → String → Bool)
    (env_admin_email env_admin_password : Option String)
    (supabaseEnabled : Bool) (users : List Account) (fresh : String)
    (s : SessionState) (form_email form_password : String) :
    LoginOutcome × SessionState :=
  if s.user_id.isSome then (.redirectIndex, s)
  else
    let email := pyLower (pyStrip form_email)
    let password := form_password
    if email == "" || password == "" then
      (.renderLogin "Email and password are required.", s)
    else if superadminMatch env_admin_email env_admin_password email password then
      (.redirectIndexFlash "Welcome back, Super Admin! 👋",
        { s with permanent := true,
                 user_id := some ("superadmin_" ++ fresh),
                 is_admin := some true })
    else
      match get_user_by_email_any supabaseEnabled users email with
      | none => (.renderLogin "Invalid email or password.", s)
      | some u =>
        if !(checkHash u.password_hash password) then
          (.renderLogin "Invalid email or password.", s)
        else if !u.is_active then
          (.renderLogin "Your account has been deactivated.", s)
        else if !u.is_approved && !u.is_admin then
          (.redirectPending, { s with user_id := some u.id })
        else
          (.redirectIndexFlash ("Welcome back, " ++ u.owner_name ++ "! 👋"),
            { s with permanent := true,
                     user_id := some u.id,
                     is_admin := some u.is_admin })

/-- Helper: a successful `get_user_by_email` lookup returns a member of the
store whose email field is the queried email. -/
theorem get_user_by_email_mem {users : List Account} {email : String}
    {u : Account} (h : get_user_by_email users email = some u) :
    u ∈ users ∧ u.email = email := by
  unfold get_user_by_email at h
  generalize hf : users.filter (fun v => v.email == email) = l at h
  cases l with
  | nil => simp at h
  | cons w t =>
    cases t with
    | nil =>
      simp at h
      have hw : w ∈ users.filter (fun v => v.email == email) := by
        rw [hf]; exact List.mem_singleton.mpr rfl
      have hm := List.mem_filter.mp hw
      rw [← h]
      exact ⟨hm.1, by simpa using hm.2⟩
    | cons w2 t2 => simp at h

/-- Helper: `get_user_by_email_any` only ever returns a member of the store
whose email field is the queried email. -/
theorem get_user_by_email_any_mem {sup : Bool} {users : List Account}
    {email : String} {u : Account}
    (h : get_user_by_email_any sup users email = some u) :
    u ∈ users ∧ u.email = email := by
  unfold get_user_by_email_any at h
  cases sup with
  | false => simp at h
  | true => exact get_user_by_email_mem (by simpa using h)

/-- Helper: a successful super-admin match forces a non-empty submitted
password, because `truthy` requires the configured `ADMIN_PASSWORD` to be
non-empty and the match compares the password exactly. -/
theorem superadminMatch_password_ne {e p : Option String} {em pw : String}
    (h : superadminMatch e p em pw = true) : (pw == "") = false := by
  unfold superadminMatch superadminConfigured truthy at h
  cases p with
  | none => simp at h
  | some ps =>
    simp only [Bool.and_eq_true, beq_iff_eq, Bool.not_eq_eq_eq_not,
      Bool.not_true] at h
    obtain ⟨⟨⟨-, hp⟩, -⟩, hpw⟩ := h
    subst hpw
    simpa using hp

/-- Helper: with an empty session, a successful super-admin match reduces the
login handler to the super-admin success branch. -/
theorem login_superadmin_eq (checkHash : String → String → Bool)
    (e p : Option String) (sup : Bool) (users : List Account) (fresh : String)
    (s : SessionState) (fe fp : String)
    (hs : s.user_id = none)
    (hne : (pyLower (pyStrip fe) == "") = false)
    (hm : superadminMatch e p (pyLower (pyStrip fe)) fp = true) :
    login checkHash e p sup users fresh s fe fp =
      (.redirectIndexFlash "Welcome back, Super Admin! 👋",
        { s with permanent := true,
                 user_id := some ("superadmin_" ++ fresh),
                 is_admin := some true }) := by
  have hpw := superadminMatch_password_ne hm
  simp [login, hs, hne, hpw, hm]

/-- Helper: when the super-admin short-circuit does not fire, the login
handler leaves `user_id` empty (failure) or sets it to the id of a stored
account. -/
theorem login_db_session_user_id (checkHash : String → String → Bool)
    (e p : Option String) (sup : Bool) (users : List Account) (fresh : String)
    (s : SessionState) (fe fp : String)
    (hs : s.user_id = none)
    (hm : superadminMatch e p (pyLower (pyStrip fe)) fp = false) :
    (login checkHash e p sup users fresh s fe fp).2.user_id = none ∨
    ∃ u, u ∈ users ∧
      (login checkHash e p sup users fresh s fe fp).2.user_id = some u.id := by
  unfold login
  rw [hs]
  simp only [Option.isSome_none, Bool.false_eq_true, if_false]
  split
  · left; exact hs
  · rw [hm]
    simp only [Bool.false_eq_true, if_false]
    split
    · left; exact hs
    · rename_i u hu
      split
      · left; exact hs
      · split
        · left; exact hs
        · split
          · right; exact ⟨u, (get_user_by_email_any_mem hu).1, rfl⟩
          · right; exact ⟨u, (get_user_by_email_any_mem hu).1, rfl⟩

/-- C3: with an empty session, a non-empty submitted email, and a store whose
ids do not collide with the minted synthetic id, super-admin login succeeds
(the session receives the synthetic id `superadmin_<fresh>`) iff both
environment credentials are configured and the submitted credentials match
them (email case-insensitively, password exactly); on a match the whole
handler result is independent of the credential store, the store-enabled
flag, and the hash checker (the store is bypassed); and distinct random
tokens mint distinct synthetic ids. -/
theorem c3_superadmin_login_iff_env_match
    (checkHash : String → String → Bool)
    (env_admin_email env_admin_password : Option String)
    (supabaseEnabled : Bool) (users : List Account) (fresh : String)
    (s : SessionState) (form_email form_password : String)
    (hs : s.user_id = none)
    (hne : (pyLower (pyStrip form_email) == "") = false)
    (hid : ∀ u ∈ users, u.id ≠ "superadmin_" ++ fresh) :
    ((login checkHash env_admin_email env_admin_password supabaseEnabled users
        fresh s form_email form_password).2.user_id
          = some ("superadmin_" ++ fresh)
      ↔ superadminMatch env_admin_email env_admin_password
          (pyLower (pyStrip form_email)) form_password = true) ∧
    (superadminMatch env_admin_email env_admin_password
        (pyLower (pyStrip form_email)) form_password = true →
      ∀ (checkHash2 : String → String → Bool) (sup2 : Bool)
        (users2 : List Account),
        login checkHash env_admin_email env_admin_password supabaseEnabled
          users fresh s form_email form_password
        = login checkHash2 env_admin_email env_admin_password sup2 users2
            fresh s form_email form_password) ∧
    (∀ fresh2 : String, fresh2 ≠ fresh →
      superadminMatch env_admin_email env_admin_password
        (pyLower (pyStrip form_email)) form_password = true →
      (login checkHash env_admin_email env_admin_password supabaseEnabled
          users fresh s form_email form_password).2.user_id
      ≠ (login checkHash env_admin_email env_admin_password supabaseEnabled
          users fresh2 s form_email form_password).2.user_id) := by
  refine ⟨?_, ?_, ?_⟩
  · constructor
    · intro hgot
      by_contra hm
      rw [Bool.not_eq_true] at hm
      rcases login_db_session_user_id checkHash env_admin_email
          env_admin_password supabaseEnabled users fresh s form_email
          form_password hs hm with hnone | ⟨u, hu, heq⟩
      · rw [hgot] at hnone; exact Option.noConfusion hnone
      · rw [hgot] at heq
        exact hid u hu (Option.some.injEq _ _ ▸ heq.symm ▸ rfl)
    · intro hm
      rw [login_superadmin_eq checkHash env_admin_email env_admin_password
        supabaseEnabled users fresh s form_email form_password hs hne hm]
  · intro hm checkHash2 sup2 users2
    rw [login_superadmin_eq checkHash env_admin_email env_admin_password
        supabaseEnabled users fresh s form_email form_password hs hne hm,
      login_superadmin_eq checkHash2 env_admin_email env_admin_password
        sup2 users2 fresh s form_email form_password hs hne hm]
  · intro fresh2 hf hm
    rw [login_superadmin_eq checkHash env_admin_email env_admin_password
        supabaseEnabled users fresh s form_email form_password hs hne hm,
      login_superadmin_eq checkHash env_admin_email env_admin_password
        supabaseEnabled users fresh2 s form_email form_password hs hne hm]
    intro hcontra
    simp only [Option.some.injEq] at hcontra
    apply hf
    have hd := congrArg String.data hcontra
    simp at hd
    cases fresh
    cases fresh2
    exact (congrArg String.mk (by simpa using hd)).symm

/-- Witness for C3 at a concrete deployment: ADMIN_EMAIL "Admin@X.com",
ADMIN_PASSWORD "Pw123", empty store, empty session, submitted email
" ADMIN@x.com " (different case, surrounding blanks), matching password. -/
theorem c3_superadmin_login_iff_env_match_witness :
    (login (fun h p => h == p) (some "Admin@X.com") (some "Pw123") true []
        "ab12" emptySession " ADMIN@x.com " "Pw123").2.user_id
      = some ("superadmin_" ++ "ab12") :=
  (c3_superadmin_login_iff_env_match (fun h p => h == p)
      (some "Admin@X.com") (some "Pw123") true [] "ab12" emptySession
      " ADMIN@x.com " "Pw123" rfl (by decide) (by simp)).1.mpr (by decide)

/-- C7: an account with `is_admin = true` always passes the approval check
regardless of `is_approved`: `login_required` never sends it to the
pending-approval view, and the login handler never redirects such an account
to the pending-approval view either. -/
theorem c7_admin_never_redirected_to_pending :
    (∀ (users : List Account) (s : SessionState) (u : Account),
      get_current_user users s = some u → u.is_admin = true →
      (login_required users s).1 ≠ GuardOutcome.redirectPending) ∧
    (∀ (checkHash : String → String → Bool) (e p : Option String) (sup : Bool)
      (users : List Account) (fresh : String) (s : SessionState)
      (fe fp : String),
      (∀ u, get_user_by_email_any sup users (pyLower (pyStrip fe)) = some u →
        u.is_admin = true) →
      (login checkHash e p sup users fresh s fe fp).1
        ≠ LoginOutcome.redirectPending) := by
  constructor
  · intro users s u h hadm
    unfold login_required
    cases hsu : s.user_id with
    | none => simp
    | some uid =>
      rw [h]
      have hfalse : (!u.is_approved && !u.is_admin) = false := by simp [hadm]
      simp only [hfalse, Bool.false_eq_true, if_false]
      split <;> simp
  · intro checkHash e p sup users fresh s fe fp hall
    simp only [login]
    split
    · simp
    · split
      · simp
      · split
        · simp
        · split
          · simp
          · rename_i u hu
            rw [hall u hu]
            simp only [Bool.not_true, Bool.and_false, Bool.false_eq_true,
              if_false]
            split
            · simp
            · split <;> simp

/-- An admin account that is not yet approved but active, used to witness the
approval bypass. -/
def sampleAdmin : Account :=
  ⟨"id-admin", "boss@x.com", "H1", "Biz", "Addr", "Boss", "99", "", 0,
    true, false, true⟩

/-- Witness for C7: the unapproved admin `sampleAdmin` is not sent to the
pending-approval view by the guard, nor by a login with its email. -/
theorem c7_admin_never_redirected_to_pending_witness :
    (login_required [sampleAdmin] ⟨some "id-admin", none, false⟩).1
      ≠ GuardOutcome.redirectPending ∧
    (login (fun h p => h == p) none none true [sampleAdmin] "t1"
        emptySession "boss@x.com" "H1").1 ≠ LoginOutcome.redirectPending := by
  constructor
  · exact c7_admin_never_redirected_to_pending.1 [sampleAdmin]
      ⟨some "id-admin", none, false⟩ sampleAdmin (by decide) rfl
  · exact c7_admin_never_redirected_to_pending.2 (fun h p => h == p) none none
      true [sampleAdmin] "t1" emptySession "boss@x.com" "H1"
      (by
        intro u hu
        have hl : get_user_by_email_any true [sampleAdmin]
            (pyLower (pyStrip "boss@x.com")) = some sampleAdmin := by decide
        rw [hl] at hu
        cases hu
        rfl)

/-- C8: with the super-admin environment credentials not both configured, a
login attempt against a store with no record for the email is observationally
identical to a login attempt against a store holding a record for the email
whose hash rejects the password: both produce the same generic
"Invalid email or password." outcome with the session untouched, so account
existence cannot be inferred from the response. -/
theorem c8_login_failure_indistinguishable
    (checkHash : String → String → Bool) (e p : Option String)
    (users1 users2 : List Account) (fresh : String) (s : SessionState)
    (fe fp : String) (u : Account)
    (henv : superadminConfigured e p = false)
    (hs : s.user_id = none)
    (hne : (pyLower (pyStrip fe) == "") = false)
    (hnp : (fp == "") = false)
    (h1 : get_user_by_email users1 (pyLower (pyStrip fe)) = none)
    (h2 : get_user_by_email users2 (pyLower (pyStrip fe)) = some u)
    (hck : checkHash u.password_hash fp = false) :
    login checkHash e p true users1 fresh s fe fp
      = login checkHash e p true users2 fresh s fe fp ∧
    login checkHash e p true users1 fresh s fe fp
      = (.renderLogin "Invalid email or password.", s) := by
  have hm : superadminMatch e p (pyLower (pyStrip fe)) fp = false := by
    simp [superadminMatch, henv]
  constructor <;>
    simp [login, hs, hne, hnp, hm, get_user_by_email_any, h1, h2, hck]

/-- A non-admin account used to witness login behavior. -/
def sampleUser : Account :=
  ⟨"id-user", "alice@x.com", "H2", "Biz2", "Addr2", "Alice", "88", "", 0,
    false, true, true⟩

/-- Witness for C8: an unknown email against an empty store and a wrong
password against the store holding `sampleUser` yield the same response. -/
theorem c8_login_failure_indistinguishable_witness :
    login (fun h p => h == p) none none true [] "t2" emptySession
        "alice@x.com" "wrong"
      = login (fun h p => h == p) none none true [sampleUser] "t2"
          emptySession "alice@x.com" "wrong" :=
  (c8_login_failure_indistinguishable (fun h p => h == p) none none
    [] [sampleUser] "t2" emptySession "alice@x.com" "wrong" sampleUser
    (by decide) rfl (by decide) (by decide) (by decide) (by decide)
    (by decide)).1

/-- C9: a credential-correct login for an active, non-admin, not-yet-approved
account sets `user_id` in the session to the account id and redirects to the
pending-approval view; in this branch the session is not marked permanent and
no `is_admin` key is stored (both keep their prior values). -/
theorem c9_pending_login_sets_session_user_id_only
    (checkHash : String → String → Bool) (e p : Option String) (sup : Bool)
    (users : List Account) (fresh : String) (s : SessionState)
    (fe fp : String) (u : Account)
    (hs : s.user_id = none)
    (hne : (pyLower (pyStrip fe) == "") = false)
    (hnp : (fp == "") = false)
    (hm : superadminMatch e p (pyLower (pyStrip fe)) fp = false)
    (hl : get_user_by_email_any sup users (pyLower (pyStrip fe)) = some u)
    (hck : checkHash u.password_hash fp = true)
    (hact : u.is_active = true)
    (hadm : u.is_admin = false)
    (happ : u.is_approved = false) :
    login checkHash e p sup users fresh s fe fp =
      (LoginOutcome.redirectPending, ⟨some u.id, s.is_admin, s.permanent⟩) := by
  simp [login, hs, hne, hnp, hm, hl, hck, hact, hadm, happ]

/-- A pending (approved = false), active, non-admin account. -/
def samplePending : Account :=
  ⟨"id-pend", "pend@x.com", "H3", "Biz3", "Addr3", "Pat", "77", "", 0,
    false, false, true⟩

/-- Witness for C9: logging in as `samplePending` from an empty session stores
only its id in the session and redirects to the pending-approval view. -/
theorem c9_pending_login_sets_session_user_id_only_witness :
    login (fun h p => h == p) none none true [samplePending] "t3"
        emptySession "pend@x.com" "H3" =
      (LoginOutcome.redirectPending, ⟨some "id-pend", none, false⟩) :=
  c9_pending_login_sets_session_user_id_only (fun h p => h == p) none none
    true [samplePending] "t3" emptySession "pend@x.com" "H3" samplePending
    rfl (by decide) (by decide) (by decide) (by decide) (by decide)
    (by decide) (by decide) (by decide)

/-- The registration POST form fields read in app.py `register`. -/
structure RegisterForm where
  email : String
  password : String
  confirm_password : String
  business_name : String
  business_address : String
  owner_name : String
  mobile : String
  gst_number : String
deriving Repr, DecidableEq

/-- Observable result of the registration POST handler. -/
inductive RegisterOutcome where
  | redirectIndex
  | renderRegister (msgs : List String)
  | redirectLoginFlash (msg : String)
deriving Repr, DecidableEq

def regSuccessMsg : String :=
  "Registration successful! Please wait for admin approval."

/-- app.py `register` POST branch. `hashFn` embeds
`generate_password_hash`; `gstCheck` embeds `verify_gst` (validity flag and
error text); `newId` is the `secrets.token_hex(16)` value for this request;
`storeErr` is `none` when the Supabase insert succeeds and carries the
exception text otherwise. Returns the outcome and the store afterwards. -/
def register (hashFn : String → String) (gstCheck : String → Bool × String)
    (supabaseEnabled : Bool) (storeErr : Option String) (newId : String)
    (users : List Account) (s : SessionState) (form : RegisterForm) :
    RegisterOutcome × List Account :=
  if s.user_id.isSome then (.redirectIndex, users)
  else
    let email := pyLower (pyStrip form.email)
    let password := form.password
    let business_name := pyStrip form.business_name
    let business_address := pyStrip form.business_address
    let owner_name := pyStrip form.owner_name
    let mobile := pyStrip form.mobile
    let gst_number := pyUpper (pyStrip form.gst_number)
    if email == "" || password == "" || business_name == "" ||
        business_address == "" || owner_name == "" || mobile == "" then
      (.renderRegister ["All fields except GST number are required."], users)
    else if !(password == form.confirm_password) then
      (.renderRegister ["Passwords do not match."], users)
    else if !(validate_password_strength password).isEmpty then
      (.renderRegister (validate_password_strength password), users)
    else if !(gst_number == "") && !(gstCheck gst_number).1 then
      (.renderRegister ["GST Verification Failed: " ++ (gstCheck gst_number).2],
        users)
    else
      match get_user_by_email_any supabaseEnabled users email with
      | some _ => (.renderRegister ["Email already registered."], users)
      | none =>
        let acct : Account :=
          ⟨newId, email, hashFn password, business_name, business_address,
            owner_name, mobile, gst_number,
            (if gst_number == "" then 0 else 1), false, false, true⟩
        if !supabaseEnabled then
          (.renderRegister
            ["Registration currently unavailable (Supabase not configured)."],
            users)
        else
          match storeErr with
          | none => (.redirectLoginFlash regSuccessMsg, users ++ [acct])
          | some e => (.renderRegister ["Registration failed: " ++ e], users)

/-- Helper: every run of the registration handler either leaves the store
untouched or reports the success message. -/
theorem register_unchanged_or_success (hashFn : String → String)
    (gstCheck : String → Bool × String) (supabaseEnabled : Bool)
    (storeErr : Option String) (newId : String) (users : List Account)
    (s : SessionState) (form : RegisterForm) :
    (register hashFn gstCheck supabaseEnabled storeErr newId users s form).2
      = users ∨
    (register hashFn gstCheck supabaseEnabled storeErr newId users s form).1
      = RegisterOutcome.redirectLoginFlash regSuccessMsg := by
  simp only [register]
  repeat' split
  all_goals first | (left; rfl) | (right; rfl)

/-- Helper: the registration handler reaches the success outcome only when
Supabase is enabled and the duplicate-email lookup found nothing. -/
theorem register_success_no_duplicate (hashFn : String → String)
    (gstCheck : String → Bool × String) (supabaseEnabled : Bool)
    (storeErr : Option String) (newId : String) (users : List Account)
    (s : SessionState) (form : RegisterForm)
    (hsucc : (register hashFn gstCheck supabaseEnabled storeErr newId users
        s form).1 = RegisterOutcome.redirectLoginFlash regSuccessMsg) :
    supabaseEnabled = true ∧
    get_user_by_email_any supabaseEnabled users (pyLower (pyStrip form.email))
      = none := by
  simp only [register] at hsucc
  repeat' split at hsucc
  all_goals simp_all

/-- C5: when exactly one stored record's email equals the (lowercased,
stripped) submitted email, registration never reaches success and leaves the
store unchanged; if moreover all earlier validations pass, the reported
failure is precisely the duplicate-email error; and in general every
registration run that does not report success leaves the store unchanged, so
no record is created on any failure. -/
theorem c5_duplicate_email_and_failures_create_nothing
    (hashFn : String → String) (gstCheck : String → Bool × String)
    (supabaseEnabled : Bool) (storeErr : Option String) (newId : String)
    (users : List Account) (s : SessionState) (form : RegisterForm)
    (w : Account)
    (hdup : users.filter (fun v => v.email == pyLower (pyStrip form.email))
      = [w]) :
    ((register hashFn gstCheck supabaseEnabled storeErr newId users s form).2
        = users ∧
      (register hashFn gstCheck supabaseEnabled storeErr newId users s form).1
        ≠ RegisterOutcome.redirectLoginFlash regSuccessMsg) ∧
    (supabaseEnabled = true → s.user_id = none →
      (pyLower (pyStrip form.email) == "" || form.password == "" ||
        pyStrip form.business_name == "" ||
        pyStrip form.business_address == "" ||
        pyStrip form.owner_name == "" || pyStrip form.mobile == "") = false →
      (form.password == form.confirm_password) = true →
      validate_password_strength form.password = [] →
      pyUpper (pyStrip form.gst_number) = "" →
      register hashFn gstCheck supabaseEnabled storeErr newId users s form
        = (.renderRegister ["Email already registered."], users)) ∧
    (∀ (users2 : List Account) (s2 : SessionState) (form2 : RegisterForm)
      (storeErr2 : Option String) (newId2 : String),
      (register hashFn gstCheck supabaseEnabled storeErr2 newId2 users2 s2
        form2).1 ≠ RegisterOutcome.redirectLoginFlash regSuccessMsg →
      (register hashFn gstCheck supabaseEnabled storeErr2 newId2 users2 s2
        form2).2 = users2) := by
  have hnotsucc :
      (register hashFn gstCheck supabaseEnabled storeErr newId users s
        form).1 ≠ RegisterOutcome.redirectLoginFlash regSuccessMsg := by
    intro hsucc
    obtain ⟨hsup, hnone⟩ := register_success_no_duplicate hashFn gstCheck
      supabaseEnabled storeErr newId users s form hsucc
    rw [hsup] at hnone
    simp [get_user_by_email_any, get_user_by_email, hdup] at hnone
  refine ⟨⟨?_, hnotsucc⟩, ?_, ?_⟩
  · rcases register_unchanged_or_success hashFn gstCheck supabaseEnabled
        storeErr newId users s form with h | h
    · exact h
    · exact absurd h hnotsucc
  · intro hsup hs hfields hconf hpw hgst
    have hlook : get_user_by_email_any supabaseEnabled users
        (pyLower (pyStrip form.email)) = some w := by
      rw [hsup]
      simp [get_user_by_email_any, get_user_by_email, hdup]
    simp [register, hs, hfields, hconf, hpw, hgst, hlook]
  · intro users2 s2 form2 storeErr2 newId2 hne2
    rcases register_unchanged_or_success hashFn gstCheck supabaseEnabled
        storeErr2 newId2 users2 s2 form2 with h | h
    · exact h
    · exact absurd h hne2

/-- Witness for C5: registering `alice@x.com` (already held by `sampleUser`)
with an otherwise valid form fails with the duplicate-email error and leaves
the store as it was. -/
theorem c5_duplicate_email_and_failures_create_nothing_witness :
    register (fun p => p) (fun _ => (false, "bad")) true none "newid"
        [sampleUser] emptySession
        ⟨"Alice@X.com", "Abc12345!", "Abc12345!", "B", "A", "O", "9", ""⟩
      = (.renderRegister ["Email already registered."], [sampleUser]) :=
  (c5_duplicate_email_and_failures_create_nothing (fun p => p)
    (fun _ => (false, "bad")) true none "newid" [sampleUser] emptySession
    ⟨"Alice@X.com", "Abc12345!", "Abc12345!", "B", "A", "O", "9", ""⟩
    sampleUser (by decide)).2.1 rfl rfl (by decide) (by decide) (by decide)
    (by decide)

/-- supabase_client.delete_user_profile: `delete().eq('id', user_id)` removes
every row whose id matches. -/
def delete_user_profile (users : List Account) (uid : String) : List Account :=
  users.filter (fun u => !(u.id == uid))

/-- app.py `delete_user` handler body (inside the admin_required wrapper):
returns the flashed message and the store afterwards; every path redirects to
the admin dashboard. -/
def delete_user (supabaseEnabled : Bool) (users : List Account)
    (target_id : String) : String × List Account :=
  if !supabaseEnabled then ("Supabase not configured.", users)
  else
    match get_user_by_id users target_id with
    | none => ("User not found.", users)
    | some u =>
      if u.is_admin then ("Cannot delete admin account.", users)
      else ("User " ++ u.email ++ " permanently deleted.",
            delete_user_profile users target_id)

/-- C6: admin delete on a target that resolves to an account with
`is_admin = true` always fails with the forbidden message and leaves the
store exactly as it was: the backing-store delete is never made. -/
theorem c6_admin_target_never_deleted
    (supabaseEnabled : Bool) (users : List Account) (target_id : String)
    (u : Account)
    (h : get_user_by_id users target_id = some u)
    (hadm : u.is_admin = true) :
    delete_user supabaseEnabled users target_id
      = (if supabaseEnabled then "Cannot delete admin account."
         else "Supabase not configured.", users) := by
  cases supabaseEnabled with
  | false => simp [delete_user]
  | true => simp [delete_user, h, hadm]

/-- Witness for C6: deleting the admin account `sampleAdmin` reports the
forbidden message and keeps the store unchanged. -/
theorem c6_admin_target_never_deleted_witness :
    delete_user true [sampleAdmin] "id-admin"
      = ("Cannot delete admin account.", [sampleAdmin]) :=
  c6_admin_target_never_deleted true [sampleAdmin] "id-admin" sampleAdmin
    (by decide) rfl

/-- Observable result of the shared-PDF route. -/
inductive ServeOutcome where
  | sendPdf (name : String)
  | notFound
deriving Repr, DecidableEq

/-- The token sanitizer in app.py `serve_shared_pdf`: keep only the characters
that are alphanumeric, a hyphen, or an underscore. Python's `isalnum` also
accepts non-ASCII letters and digits; the model restricts to ASCII, and every
character either version keeps is path-safe. -/
def sanitize_token (token : String) : String :=
  String.mk (token.data.filter (fun c => c.isAlphanum || c == '-' || c == '_'))

/-- app.py `serve_shared_pdf`: build `<sanitized-token>.pdf` inside the shared
folder (modelled as the list of its direct-child file names) and 404 when no
such file exists. -/
def serve_shared_pdf (sharedFiles : List String) (token : String) :
    ServeOutcome :=
  let safe_token := sanitize_token token
  if sharedFiles.contains (safe_token ++ ".pdf") then
    .sendPdf (safe_token ++ ".pdf")
  else .notFound

/-- C10: every character surviving sanitization is alphanumeric, a hyphen, or
an underscore — in particular the sanitized token contains no path separator
and no dot, so `<sanitized-token>.pdf` names a direct child of the shared
folder and traversal through the token is impossible; and a token whose
sanitized form names no existing file yields the 404 outcome. -/
theorem c10_shared_pdf_token_sanitized (token : String) :
    (∀ c ∈ (sanitize_token token).data,
      (c.isAlphanum || c == '-' || c == '_') = true) ∧
    ('/' ∉ (sanitize_token token).data ∧ '.' ∉ (sanitize_token token).data) ∧
    (∀ sharedFiles : List String,
      sharedFiles.contains (sanitize_token token ++ ".pdf") = false →
      serve_shared_pdf sharedFiles token = .notFound) := by
  have hall : ∀ c ∈ (sanitize_token token).data,
      (c.isAlphanum || c == '-' || c == '_') = true := by
    intro c hc
    unfold sanitize_token at hc
    exact (List.mem_filter.mp hc).2
  refine ⟨hall, ⟨?_, ?_⟩, ?_⟩
  · intro hmem
    have := hall _ hmem
    simp at this
  · intro hmem
    have := hall _ hmem
    simp at this
  · intro sharedFiles h
    simp at h
    simp [serve_shared_pdf, h]

/-- Witness for C10: the traversal attempt "../../etc/passwd" sanitizes to a
harmless name that is absent from an example shared folder, so the route
answers 404. -/
theorem c10_shared_pdf_token_sanitized_witness :
    serve_shared_pdf ["tok1.pdf"] "../../etc/passwd" = .notFound :=
  (c10_shared_pdf_token_sanitized "../../etc/passwd").2.2 ["tok1.pdf"]
    (by decide)

/-- A deactivated account that is both approved and admin. -/
def inactiveAdmin : Account :=
  ⟨"id-iadm", "iadm@x.com", "H4", "B4", "A4", "Ida", "66", "", 0,
    true, true, false⟩

/-- C1 counterexample: `admin_required` never consults `is_active`, so the
deactivated admin `inactiveAdmin` passes the admin guard — the request
proceeds and the session is untouched. Hence it is false that every account
with `is_active = false` is rejected by both guards. -/
theorem c1_counterexample_admin_guard_passes_inactive_admin :
    admin_required [inactiveAdmin] ⟨some "id-iadm", some true, true⟩
      = (GuardOutcome.proceed inactiveAdmin,
         ⟨some "id-iadm", some true, true⟩) := by decide

/-- C1 (amended): for an account with `is_active = false`,
`login_required` rejects the request: it clears the session and redirects to
login when the account is approved or an admin, and redirects to the
pending-approval view without clearing the session otherwise; but
`admin_required` performs no `is_active` check at all — a resolved admin
account proceeds regardless of `is_active`. -/
theorem c1_inactive_rejected_by_login_guard_only
    (users : List Account) (s : SessionState) (u : Account)
    (h : get_current_user users s = some u) :
    (u.is_active = false → (u.is_approved = true ∨ u.is_admin = true) →
      login_required users s =
        (GuardOutcome.redirectLogin "Your account has been deactivated.",
         emptySession)) ∧
    (u.is_active = false → u.is_approved = false → u.is_admin = false →
      login_required users s = (GuardOutcome.redirectPending, s)) ∧
    (u.is_admin = true →
      admin_required users s = (GuardOutcome.proceed u, s)) := by
  have hsu : ∃ uid, s.user_id = some uid := by
    unfold get_current_user at h
    cases hx : s.user_id with
    | none => rw [hx] at h; cases h
    | some uid => exact ⟨uid, rfl⟩
  obtain ⟨uid, hsu⟩ := hsu
  refine ⟨?_, ?_, ?_⟩
  · intro hact hor
    unfold login_required
    rw [hsu, h]
    have h1 : (!u.is_approved && !u.is_admin) = false := by
      rcases hor with hap | had
      · simp [hap]
      · simp [had]
    simp [h1, hact]
  · intro hact hap had
    unfold login_required
    rw [hsu, h]
    simp [hap, had]
  · intro had
    unfold admin_required
    rw [hsu, h]
    simp [had]

/-- Witness for C1 (amended): the deactivated approved admin `inactiveAdmin`
is rejected by `login_required` with the session cleared. -/
theorem c1_inactive_rejected_by_login_guard_only_witness :
    login_required [inactiveAdmin] ⟨some "id-iadm", some true, true⟩
      = (GuardOutcome.redirectLogin "Your account has been deactivated.",
         emptySession) :=
  (c1_inactive_rejected_by_login_guard_only [inactiveAdmin]
    ⟨some "id-iadm", some true, true⟩ inactiveAdmin (by decide)).1 rfl
    (Or.inl rfl)

/-- C2 counterexample: with a session naming an id that resolves to no
account, `admin_required` flashes the admin error and redirects to the index
view leaving the session intact — it does not clear the session and does not
redirect to the login page as `login_required` does in that situation. -/
theorem c2_counterexample_unresolvable_session_kept :
    admin_required [] ⟨some "ghost", some true, true⟩
      = (GuardOutcome.redirectIndex "Admin access required.",
         ⟨some "ghost", some true, true⟩) ∧
    login_required [] ⟨some "ghost", some true, true⟩
      = (GuardOutcome.redirectLogin "Session expired. Please log in again.",
         emptySession) := by decide

/-- C2 (amended): `admin_required` matches `login_required` only in the
missing-session case (redirect to login with a warning); when a session is
present but the account cannot be resolved it takes the same branch as a
resolved non-admin — redirect to the home view with the admin error, without
clearing the session; a resolved admin proceeds. -/
theorem c2_admin_guard_unresolvable_like_non_admin
    (users : List Account) (s : SessionState) :
    (s.user_id = none →
      admin_required users s =
        (GuardOutcome.redirectLogin "Please log in to access this page.", s)) ∧
    (∀ uid, s.user_id = some uid → get_current_user users s = none →
      admin_required users s =
        (GuardOutcome.redirectIndex "Admin access required.", s)) ∧
    (∀ u, get_current_user users s = some u → u.is_admin = false →
      admin_required users s =
        (GuardOutcome.redirectIndex "Admin access required.", s)) ∧
    (∀ u, get_current_user users s = some u → u.is_admin = true →
      admin_required users s = (GuardOutcome.proceed u, s)) := by
  refine ⟨?_, ?_, ?_, ?_⟩
  · intro hnone
    unfold admin_required
    rw [hnone]
  · intro uid hsu hres
    unfold admin_required
    rw [hsu, hres]
  · intro u hres had
    have hsu : ∃ uid, s.user_id = some uid := by
      unfold get_current_user at hres
      cases hx : s.user_id with
      | none => rw [hx] at hres; cases hres
      | some uid => exact ⟨uid, rfl⟩
    obtain ⟨uid, hsu⟩ := hsu
    unfold admin_required
    rw [hsu, hres]
    simp [had]
  · intro u hres had
    have hsu : ∃ uid, s.user_id = some uid := by
      unfold get_current_user at hres
      cases hx : s.user_id with
      | none => rw [hx] at hres; cases hres
      | some uid => exact ⟨uid, rfl⟩
    obtain ⟨uid, hsu⟩ := hsu
    unfold admin_required
    rw [hsu, hres]
    simp [had]

/-- Witness for C2 (amended): a session naming the unknown id "g2" is sent to
the index view with the session intact. -/
theorem c2_admin_guard_unresolvable_like_non_admin_witness :
    admin_required [] ⟨some "g2", none, false⟩
      = (GuardOutcome.redirectIndex "Admin access required.",
         ⟨some "g2", none, false⟩) :=
  (c2_admin_guard_unresolvable_like_non_admin [] ⟨some "g2", none, false⟩).2.1
    "g2" rfl (by decide)
